import Mathlib

/-!
Verification of the tremor causal-inference core.

Shallow embedding of the core modules of the tremor repository:
`tremor/core/shock_detector.py`, `tremor/core/propagation.py`,
`tremor/causal/event_study.py`, `tremor/causal/baselines.py` and
`tremor/causal/network.py`.  Numeric values handled by the Python code
(floats) are modelled as rationals where the code only compares and adds,
and as real numbers where it takes square roots or logarithms.
Timestamps are modelled as rational day counts; calendar dates as
integers (day numbers).  Fallible operations return `Except`/`Option`.
-/

set_option autoImplicit false

namespace Tremor

/-! ### Shock detector (`tremor/core/shock_detector.py`) -/

/-- `MIN_HISTORY_FOR_ZSCORE` from `shock_detector.py`. -/
def MIN_HISTORY_FOR_ZSCORE : Nat := 5

/-- `np.mean(historical_values)`: arithmetic mean of a list of reals. -/
noncomputable def sampleMean (xs : List ℝ) : ℝ := xs.sum / xs.length

/-- `np.std(historical_values, ddof=1)`: Bessel-corrected (divisor `n-1`)
sample standard deviation. -/
noncomputable def sampleStd (xs : List ℝ) : ℝ :=
  Real.sqrt (((xs.map (fun x => (x - sampleMean xs) ^ 2)).sum) / (xs.length - 1))

open Classical in
/-- `detect_shock` from `shock_detector.py`: returns `(z_score, is_shock)`,
with `z_score = none` when history is short or degenerate. -/
noncomputable def detect_shock (value : ℝ) (historical_values : List ℝ)
    (threshold_sd : ℝ) (absolute_threshold : ℝ) : Option ℝ × Bool :=
  if historical_values.length < MIN_HISTORY_FOR_ZSCORE then
    (none, decide (|value| > absolute_threshold))
  else
    let mean := sampleMean historical_values
    let std := sampleStd historical_values
    if std = 0 then
      (none, decide (|value| > absolute_threshold))
    else
      let z_score := (value - mean) / std
      (some z_score, decide (|z_score| > threshold_sd))

/-- C4: on a history of length ≥ 5 with non-zero sample standard deviation,
`detect_shock` returns the z-score `(value - mean) / std` computed with the
Bessel-corrected sample standard deviation, and flags a shock iff
`|z| > threshold_sd`. -/
theorem detect_shock_zscore (value : ℝ) (hist : List ℝ) (t a : ℝ)
    (h5 : 5 ≤ hist.length) (hstd : sampleStd hist ≠ 0) :
    (detect_shock value hist t a).1 = some ((value - sampleMean hist) / sampleStd hist) ∧
    ((detect_shock value hist t a).2 = true ↔
      |(value - sampleMean hist) / sampleStd hist| > t) := by
  have hlen : ¬ hist.length < MIN_HISTORY_FOR_ZSCORE := by
    simp only [MIN_HISTORY_FOR_ZSCORE]; omega
  simp only [detect_shock, hlen, if_false, hstd, if_neg hstd, ite_false]
  exact ⟨trivial, by simp⟩

/-- Concrete run of `detect_shock_zscore`: the history `[-1,-1,0,1,1]` has
mean `0` and sample standard deviation `1`, so value `3` has z-score `3`
and is a shock at threshold `2`. -/
theorem detect_shock_zscore_witness :
    sampleStd [(-1 : ℝ), -1, 0, 1, 1] ≠ 0 ∧
    (detect_shock 3 [(-1 : ℝ), -1, 0, 1, 1] 2 1).1 =
      some ((3 - sampleMean [(-1 : ℝ), -1, 0, 1, 1]) / sampleStd [(-1 : ℝ), -1, 0, 1, 1]) := by
  have hmean : sampleMean [(-1 : ℝ), -1, 0, 1, 1] = 0 := by
    simp [sampleMean]
  have hstd : sampleStd [(-1 : ℝ), -1, 0, 1, 1] = 1 := by
    simp only [sampleStd, hmean]
    norm_num [List.sum_cons]
  refine ⟨by rw [hstd]; exact one_ne_zero, ?_⟩
  exact (detect_shock_zscore 3 [(-1 : ℝ), -1, 0, 1, 1] 2 1 (by simp)
    (by rw [hstd]; exact one_ne_zero)).1

/-- C5: `detect_shock` takes the absolute-magnitude fallback branch —
null z-score, shock iff `|value| > absolute_threshold` — exactly when the
history has fewer than 5 elements or its sample standard deviation is
exactly zero (so the z-score division is never performed on a zero
denominator). -/
theorem detect_shock_fallback (value : ℝ) (hist : List ℝ) (t a : ℝ) :
    ((detect_shock value hist t a).1 = none ∧
      ((detect_shock value hist t a).2 = true ↔ |value| > a)) ↔
    (hist.length < 5 ∨ sampleStd hist = 0) := by
  constructor
  · intro h
    by_contra hc
    push_neg at hc
    obtain ⟨hlen, hstd⟩ := hc
    have hlen' : ¬ hist.length < MIN_HISTORY_FOR_ZSCORE := by
      simp only [MIN_HISTORY_FOR_ZSCORE]; omega
    have := h.1
    simp only [detect_shock, hlen', if_false, if_neg hstd, ite_false] at this
    exact Option.noConfusion this
  · intro h
    rcases h with hlen | hstd
    · have hlen' : hist.length < MIN_HISTORY_FOR_ZSCORE := by
        simp only [MIN_HISTORY_FOR_ZSCORE]; omega
      simp only [detect_shock, hlen', if_true, ite_true]
      exact ⟨trivial, by simp⟩
    · by_cases hlen : hist.length < MIN_HISTORY_FOR_ZSCORE

      · simp only [detect_shock, hlen, if_true, ite_true]
        exact ⟨trivial, by simp⟩
      · simp only [detect_shock, hlen, if_false, hstd, if_true, ite_false, ite_true]
        exact ⟨trivial, by simp⟩

/-! ### Confidence assessment (`tremor/causal/event_study.py`, `_assess_confidence`) -/

/-- The fields of the main-regression output dictionary consumed by
`_assess_confidence` (`p_value` and `r_squared`). -/
structure RegressionSummary where
  pValue : ℚ
  rSquared : ℚ
deriving DecidableEq

/-- `sum(1 for x in [pre_passed, zero_passed] if x is True)`. -/
def placebosPassed (prePassed zeroPassed : Option Bool) : Nat :=
  ([prePassed, zeroPassed].filter (fun x => x = some true)).length

/-- `sum(1 for x in [pre_passed, zero_passed] if x is not None)`. -/
def placebosAvailable (prePassed zeroPassed : Option Bool) : Nat :=
  ([prePassed, zeroPassed].filter (fun x => x ≠ none)).length

/-- `_assess_confidence` from `event_study.py`: the tiered causal verdict
`(is_causal, confidence_level)` from the main regression's p-value and R²,
the two placebo outcomes (`none` = placebo unavailable) and the used-event
count. -/
def assess_confidence (reg : RegressionSummary) (prePassed zeroPassed : Option Bool)
    (numEvents : Nat) : Bool × String :=
  let p := reg.pValue
  let r2 := reg.rSquared
  let passed := placebosPassed prePassed zeroPassed
  let available := placebosAvailable prePassed zeroPassed
  if p < 1/100 ∧ r2 > 3/20 ∧ 10 ≤ numEvents ∧ passed = available ∧ 0 < available then
    (true, "high")
  else if p < 1/20 ∧ 7 ≤ numEvents ∧ 1 ≤ passed then
    (true, "medium")
  else if p < 1/10 ∧ 5 ≤ numEvents then
    (false, "low")
  else
    (false, "none")

/-- Spec-side reading of "every available placebo passed": each placebo is
either unavailable or passed. -/
def everyAvailablePlaceboPassed (prePassed zeroPassed : Option Bool) : Prop :=
  (∀ b, prePassed = some b → b = true) ∧ (∀ b, zeroPassed = some b → b = true)

/-- Spec-side reading of "at least one placebo available". -/
def atLeastOnePlaceboAvailable (prePassed zeroPassed : Option Bool) : Prop :=
  prePassed ≠ none ∨ zeroPassed ≠ none

/-- Spec-side reading of "at least one placebo passed". -/
def atLeastOnePlaceboPassed (prePassed zeroPassed : Option Bool) : Prop :=
  prePassed = some true ∨ zeroPassed = some true

/-- The `high`-tier condition as the spec words it. -/
def highCond (reg : RegressionSummary) (prePassed zeroPassed : Option Bool)
    (numEvents : Nat) : Prop :=
  reg.pValue < 1/100 ∧ reg.rSquared > 3/20 ∧ 10 ≤ numEvents ∧
    everyAvailablePlaceboPassed prePassed zeroPassed ∧
    atLeastOnePlaceboAvailable prePassed zeroPassed

/-- The `medium`-tier condition as the spec words it. -/
def mediumCond (reg : RegressionSummary) (prePassed zeroPassed : Option Bool)
    (numEvents : Nat) : Prop :=
  reg.pValue < 1/20 ∧ 7 ≤ numEvents ∧ atLeastOnePlaceboPassed prePassed zeroPassed

/-- The `low`-tier condition as the spec words it. -/
def lowCond (reg : RegressionSummary) (numEvents : Nat) : Prop :=
  reg.pValue < 1/10 ∧ 5 ≤ numEvents

/-- The code's placebo-count test coincides with the spec's pointwise
"every available placebo passed, at least one available". -/
theorem placebo_counts_iff : ∀ (pre zero : Option Bool),
    (placebosPassed pre zero = placebosAvailable pre zero ∧
      0 < placebosAvailable pre zero) ↔
    (everyAvailablePlaceboPassed pre zero ∧ atLeastOnePlaceboAvailable pre zero) := by
  intro pre zero
  rcases pre with _ | (_ | _) <;> rcases zero with _ | (_ | _) <;>
    simp [placebosPassed, placebosAvailable, everyAvailablePlaceboPassed,
      atLeastOnePlaceboAvailable]

/-- The code's `1 ≤ placebos_passed` coincides with the spec's "at least one
placebo passed". -/
theorem placebo_passed_iff : ∀ (pre zero : Option Bool),
    1 ≤ placebosPassed pre zero ↔ atLeastOnePlaceboPassed pre zero := by
  intro pre zero
  rcases pre with _ | (_ | _) <;> rcases zero with _ | (_ | _) <;>
    simp [placebosPassed, atLeastOnePlaceboPassed]

/-- C1: the causal verdict equals the tiered rule — `(true, "high")` iff the
high condition holds; otherwise `(true, "medium")` iff the medium condition
holds; otherwise `(false, "low")` iff the low condition holds; otherwise
`(false, "none")`. -/
theorem assess_confidence_tiers (reg : RegressionSummary)
    (pre zero : Option Bool) (n : Nat) :
    (assess_confidence reg pre zero n = (true, "high") ↔ highCond reg pre zero n) ∧
    (assess_confidence reg pre zero n = (true, "medium") ↔
      (¬ highCond reg pre zero n ∧ mediumCond reg pre zero n)) ∧
    (assess_confidence reg pre zero n = (false, "low") ↔
      (¬ highCond reg pre zero n ∧ ¬ mediumCond reg pre zero n ∧ lowCond reg n)) ∧
    (assess_confidence reg pre zero n = (false, "none") ↔
      (¬ highCond reg pre zero n ∧ ¬ mediumCond reg pre zero n ∧ ¬ lowCond reg n)) := by
  have hcnt := placebo_counts_iff pre zero
  have hone := placebo_passed_iff pre zero
  have hhigh : (reg.pValue < 1/100 ∧ reg.rSquared > 3/20 ∧ 10 ≤ n ∧
      placebosPassed pre zero = placebosAvailable pre zero ∧
      0 < placebosAvailable pre zero) ↔ highCond reg pre zero n := by
    unfold highCond
    constructor
    · rintro ⟨h1, h2, h3, h4, h5⟩
      exact ⟨h1, h2, h3, (hcnt.mp ⟨h4, h5⟩).1, (hcnt.mp ⟨h4, h5⟩).2⟩
    · rintro ⟨h1, h2, h3, h4, h5⟩
      exact ⟨h1, h2, h3, (hcnt.mpr ⟨h4, h5⟩).1, (hcnt.mpr ⟨h4, h5⟩).2⟩
  have hmed : (reg.pValue < 1/20 ∧ 7 ≤ n ∧ 1 ≤ placebosPassed pre zero) ↔
      mediumCond reg pre zero n := by
    unfold mediumCond
    rw [hone]
  simp only [assess_confidence, lowCond]
  split_ifs with h1 h2 h3
  · refine ⟨⟨fun _ => hhigh.mp h1, fun _ => rfl⟩, ?_, ?_, ?_⟩
    · constructor
      · intro he; exact absurd he (by decide)
      · rintro ⟨hn, _⟩; exact absurd (hhigh.mp h1) hn
    · constructor
      · intro he; exact absurd he (by decide)
      · rintro ⟨hn, _⟩; exact absurd (hhigh.mp h1) hn
    · constructor
      · intro he; exact absurd he (by decide)
      · rintro ⟨hn, _⟩; exact absurd (hhigh.mp h1) hn
  · refine ⟨?_, ⟨fun _ => ⟨fun hc => h1 (hhigh.mpr hc), hmed.mp h2⟩, fun _ => rfl⟩, ?_, ?_⟩
    · constructor
      · intro he; exact absurd he (by decide)
      · rintro hc; exact absurd (hhigh.mpr hc) h1
    · constructor
      · intro he; exact absurd he (by decide)
      · rintro ⟨_, hn, _⟩; exact absurd (hmed.mp h2) hn
    · constructor
      · intro he; exact absurd he (by decide)
      · rintro ⟨_, hn, _⟩; exact absurd (hmed.mp h2) hn
  · refine ⟨?_, ?_, ⟨fun _ => ⟨fun hc => h1 (hhigh.mpr hc),
      fun hc => h2 (hmed.mpr hc), h3⟩, fun _ => rfl⟩, ?_⟩
    · constructor
      · intro he; exact absurd he (by decide)
      · rintro hc; exact absurd (hhigh.mpr hc) h1
    · constructor
      · intro he; exact absurd he (by decide)
      · rintro ⟨_, hc⟩; exact absurd (hmed.mpr hc) h2
    · constructor
      · intro he; exact absurd he (by decide)
      · rintro ⟨_, _, hn⟩; exact absurd h3 hn
  · refine ⟨?_, ?_, ?_, ⟨fun _ => ⟨fun hc => h1 (hhigh.mpr hc),
      fun hc => h2 (hmed.mpr hc), h3⟩, fun _ => rfl⟩⟩
    · constructor
      · intro he; exact absurd he (by decide)
      · rintro hc; exact absurd (hhigh.mpr hc) h1
    · constructor
      · intro he; exact absurd he (by decide)
      · rintro ⟨_, hc⟩; exact absurd (hmed.mpr hc) h2
    · constructor
      · intro he; exact absurd he (by decide)
      · rintro ⟨_, _, hc⟩; exact absurd hc h3

/-! ### Expected-response baselines (`tremor/causal/baselines.py`) -/

/-- One `target_node` entry of the baselines JSON: the `direction` and
`responses` keys, each possibly absent. -/
structure TargetData where
  direction : Option String
  responses : Option (List ℚ)

/-- The baselines mapping `source_node -> target_node -> TargetData`,
as an association list (first binding wins, like a JSON object). -/
def Baselines : Type := List (String × List (String × TargetData))

/-- `dict.get(key, default)`-style lookup in an association list. -/
def dictGet {α : Type} (m : List (String × α)) (k : String) : Option α :=
  (m.find? (fun p => p.1 = k)).map (fun p => p.2)

/-- Python list subscription `xs[i]` for an `int` index: non-negative
indices from the front, negative indices from the back, and `none` for the
out-of-range cases that raise `IndexError`. -/
def pySubscript (xs : List ℚ) (i : ℤ) : Option ℚ :=
  if 0 ≤ i then xs.get? i.toNat
  else if -(xs.length : ℤ) ≤ i then xs.get? ((xs.length : ℤ) + i).toNat
  else none

/-- `get_expected_response` from `baselines.py`: looks up
`_baselines[source][target]["responses"]` (each step defaulting to empty)
and returns `responses[lag]` when `lag < len(responses)`, else `None`.
`Except.error` models the `IndexError` Python raises when the subscript
`responses[lag]` is out of range (a negative lag below `-len`). -/
def get_expected_response (baselines : Baselines) (source_node target_node : String)
    (lag : ℤ) : Except String (Option ℚ) :=
  let source_data := (dictGet baselines source_node).getD []
  let target_data := (dictGet source_data target_node).getD ⟨none, none⟩
  let responses := target_data.responses.getD []
  if lag < (responses.length : ℤ) then
    match pySubscript responses lag with
    | some v => Except.ok (some v)
    | none => Except.error "IndexError"
  else
    Except.ok none

/-- `get_expected_direction` from `baselines.py`: looks up
`_baselines[source][target]["direction"]`, `None` when absent. -/
def get_expected_direction (baselines : Baselines)
    (source_node target_node : String) : Option String :=
  let source_data := (dictGet baselines source_node).getD []
  let target_data := (dictGet source_data target_node).getD ⟨none, none⟩
  target_data.direction

/-- The response curve the lookups operate on (the `responses` binding of
`get_expected_response`), for stating C8. -/
def responseCurve (baselines : Baselines) (source_node target_node : String) : List ℚ :=
  (((dictGet ((dictGet baselines source_node).getD []) target_node).getD
    ⟨none, none⟩).responses).getD []

/-- A one-edge baselines table whose response curve has a single entry,
used to exhibit the `IndexError` at a negative lag. -/
def exBaselines : Baselines :=
  [("s", [("t", ⟨some "positive", some [1/10]⟩)])]

/-- C8 counterexample: at lag `-2` against a 1-element response curve the
lookup raises `IndexError` (the guard `lag < len(responses)` admits every
negative lag, and Python's negative indexing then runs off the front), so
"never raises" fails for general integer lags. -/
theorem get_expected_response_raises :
    get_expected_response exBaselines "s" "t" (-2) = Except.error "IndexError" := by
  rfl

/-- C8 amended: for every baselines table, source, target and *non-negative*
lag, `expected_response` never raises; it returns `none` when the lag is at
or beyond the response curve, and both lookups return `none` when the
source or target key is absent. -/
theorem baselines_absent_returns_none (baselines : Baselines)
    (source_node target_node : String) (lag : ℤ) (hlag : 0 ≤ lag) :
    (∃ r, get_expected_response baselines source_node target_node lag = Except.ok r) ∧
    ((responseCurve baselines source_node target_node).length ≤ lag →
      get_expected_response baselines source_node target_node lag = Except.ok none) ∧
    (dictGet baselines source_node = none →
      get_expected_response baselines source_node target_node lag = Except.ok none ∧
      get_expected_direction baselines source_node target_node = none) ∧
    (dictGet ((dictGet baselines source_node).getD []) target_node = none →
      get_expected_response baselines source_node target_node lag = Except.ok none ∧
      get_expected_direction baselines source_node target_node = none) := by
  have key : get_expected_response baselines source_node target_node lag =
      if lag < ((responseCurve baselines source_node target_node).length : ℤ) then
        match pySubscript (responseCurve baselines source_node target_node) lag with
        | some v => Except.ok (some v)
        | none => Except.error "IndexError"
      else Except.ok none := rfl
  refine ⟨?_, ?_, ?_, ?_⟩
  · rw [key]
    by_cases hlen : lag < ((responseCurve baselines source_node target_node).length : ℤ)
    · rw [if_pos hlen]
      rcases hs : pySubscript (responseCurve baselines source_node target_node) lag
        with _ | v
      · exfalso
        unfold pySubscript at hs
        rw [if_pos hlag] at hs
        rw [List.get?_eq_none] at hs
        omega
      · exact ⟨some v, rfl⟩
    · rw [if_neg hlen]
      exact ⟨none, rfl⟩
  · intro hbeyond
    rw [key, if_neg (by omega)]
  · intro habsent
    have hcurve : responseCurve baselines source_node target_node = [] := by
      unfold responseCurve
      rw [habsent]
      rfl
    constructor
    · rw [key, hcurve, if_neg (by simpa using hlag)]
    · simp only [get_expected_direction]
      rw [habsent]
      rfl
  · intro habsent
    have hcurve : responseCurve baselines source_node target_node = [] := by
      unfold responseCurve
      rw [habsent]
      rfl
    constructor
    · rw [key, hcurve, if_neg (by simpa using hlag)]
    · simp only [get_expected_direction]
      rw [habsent]
      rfl

/-- Concrete run of `baselines_absent_returns_none` at lag `5` on the
one-edge table: the lag is past the curve, so the lookup returns `none`
without raising. -/
theorem baselines_absent_returns_none_witness :
    (0 : ℤ) ≤ 5 ∧
    get_expected_response exBaselines "s" "t" 5 = Except.ok none := by
  refine ⟨by decide, ?_⟩
  exact (baselines_absent_returns_none exBaselines "s" "t" 5 (by decide)).2.1
    (by decide)

/-! ### Causal network (`tremor/causal/network.py`) -/

/-- Per-edge attributes of the causal network. -/
structure EdgeAttrs where
  f_statistic : ℚ
  p_value : ℚ
  lag : ℤ
deriving DecidableEq

/-- A directed graph as its edge list `(source, target, attrs)` in insertion
order, with at most one edge per ordered pair (as in `nx.DiGraph`). -/
abbrev Graph : Type := List (String × String × EdgeAttrs)

/-- `nx.DiGraph.add_edge`: overwrite the attributes if the ordered pair is
already present, otherwise append the edge. -/
def add_edge (g : Graph) (u v : String) (a : EdgeAttrs) : Graph :=
  if g.any (fun e => e.1 = u ∧ e.2.1 = v) then
    g.map (fun e => if e.1 = u ∧ e.2.1 = v then (u, v, a) else e)
  else
    g ++ [(u, v, a)]

/-- One row of a Granger-results CSV: columns
`cause, effect, f_statistic, p_value, lag`. -/
structure GrangerRow where
  cause : String
  effect : String
  f_statistic : ℚ
  p_value : ℚ
  lag : ℤ

/-- `_load_from_granger_csv` from `network.py`: each row becomes one
directed edge. -/
def load_from_granger_csv (rows : List GrangerRow) : Graph :=
  rows.foldl (fun g r => add_edge g r.cause r.effect ⟨r.f_statistic, r.p_value, r.lag⟩) []

/-- Append a node if not already present (insertion-order node set). -/
def addNode (ns : List String) (x : String) : List String :=
  if x ∈ ns then ns else ns ++ [x]

/-- The node set of the graph in insertion order (`node in causal_network`). -/
def graphNodes (g : Graph) : List String :=
  g.foldl (fun ns e => addNode (addNode ns e.1) e.2.1) []

/-- `causal_network.successors(node)` in edge-insertion order. -/
def successorsList (g : Graph) (node : String) : List String :=
  (g.filter (fun e => e.1 = node)).map (fun e => e.2.1)

/-- `causal_network.predecessors(node)` in edge-insertion order. -/
def predecessorsList (g : Graph) (node : String) : List String :=
  (g.filter (fun e => e.2.1 = node)).map (fun e => e.1)

/-- `get_downstream_nodes` from `network.py`. -/
def get_downstream_nodes (g : Graph) (node : String) : List String :=
  if node ∈ graphNodes g then successorsList g node else []

/-- `get_upstream_nodes` from `network.py`. -/
def get_upstream_nodes (g : Graph) (node : String) : List String :=
  if node ∈ graphNodes g then predecessorsList g node else []

/-- Breadth-first search over `g`, modelling `nx.shortest_path` without a
weight argument: it returns a path with the fewest edges.  The frontier
holds `(node, reversed path to it)`; `fuel` bounds the number of levels. -/
def bfsAux (g : Graph) (target : String) :
    Nat → List (String × List String) → List String → Option (List String)
  | 0, _, _ => none
  | fuel + 1, frontier, visited =>
    match frontier.find? (fun p => p.1 = target) with
    | some p => some p.2.reverse
    | none =>
      let expanded := frontier.flatMap (fun p =>
        ((successorsList g p.1).filter (fun m => ¬ m ∈ visited)).map
          (fun m => (m, m :: p.2)))
      bfsAux g target fuel expanded (visited ++ expanded.map (fun q => q.1))

/-- `get_transmission_path` from `network.py`: `nx.shortest_path`, with
`None` for an unreachable target (`NetworkXNoPath`) or an absent endpoint
(`NodeNotFound`). -/
def get_transmission_path (g : Graph) (s t : String) : Option (List String) :=
  if s ∈ graphNodes g ∧ t ∈ graphNodes g then
    bfsAux g t ((graphNodes g).length + 1) [(s, [s])] [s]
  else
    none

/-- The three CSV rows A→B, A→C, B→C of the spec's tabular-load example. -/
def exRows : List GrangerRow :=
  [⟨"A", "B", 12, 1/100, 1⟩, ⟨"A", "C", 8, 1/50, 2⟩, ⟨"B", "C", 5, 1/20, 1⟩]

/-- The graph loaded from those rows. -/
def exGraph : Graph := load_from_granger_csv exRows

/-- C9: after loading the 3-row tabular source A→B, A→C, B→C, downstream
of A is `{B, C}`, upstream of C is `{A, B}`, and the shortest path from A
to C is the direct edge `["A", "C"]` (fewest edges). -/
theorem network_csv_queries :
    get_downstream_nodes exGraph "A" = ["B", "C"] ∧
    get_upstream_nodes exGraph "C" = ["A", "B"] ∧
    get_transmission_path exGraph "A" "C" = some ["A", "C"] := by
  refine ⟨by rfl, by rfl, by rfl⟩

/-- A network source file as `load_network` sees it: its extension decides
the parser, and the parse itself may fail (an exception during
`nx.read_graphml` or the CSV field conversions). -/
inductive NetworkFile where
  | graphml (parsed : Except String Graph)
  | csv (parsed : Except String (List GrangerRow))
  | other (suffix : String)

/-- The errors `load_network` can raise: `FileNotFoundError`, the
unsupported-format `ValueError`, or a parse exception. -/
inductive LoadError where
  | notFound
  | unsupportedFormat (suffix : String)
  | parseFailure (msg : String)
deriving DecidableEq

/-- `load_network` from `network.py`.  The result pair is (the module-level
graph after the call, the raised exception if any): the existing graph is
cleared and replaced (`clear()` + `update(loaded)`) only after the new
source has been fully parsed, so every failure leaves it untouched. -/
def load_network (fs : String → Option NetworkFile) (path : String)
    (causal_network : Graph) : Graph × Option LoadError :=
  match fs path with
  | none => (causal_network, some LoadError.notFound)
  | some (NetworkFile.graphml parsed) =>
    match parsed with
    | Except.error e => (causal_network, some (LoadError.parseFailure e))
    | Except.ok loaded => (loaded, none)
  | some (NetworkFile.csv parsed) =>
    match parsed with
    | Except.error e => (causal_network, some (LoadError.parseFailure e))
    | Except.ok rows => (load_from_granger_csv rows, none)
  | some (NetworkFile.other suffix) =>
    (causal_network, some (LoadError.unsupportedFormat suffix))

/-- C10: whenever `load_network` fails — missing file, unsupported
extension, or a parse exception — the previously loaded graph is exactly
what it was before the call. -/
theorem load_network_failure_preserves_graph (fs : String → Option NetworkFile)
    (path : String) (g : Graph) (e : LoadError)
    (h : (load_network fs path g).2 = some e) :
    (load_network fs path g).1 = g := by
  unfold load_network at h ⊢
  rcases hf : fs path with _ | f
  · rfl
  · rcases f with p | p | s
    · rcases hp : p with e' | loaded
      · rfl
      · rw [hf, hp] at h
        exact absurd h (by simp)
    · rcases hp : p with e' | rows
      · rfl
      · rw [hf, hp] at h
        exact absurd h (by simp)
    · rfl

/-- Concrete run of `load_network_failure_preserves_graph`: loading from an
absent path fails with the not-found error and leaves the example graph in
place. -/
theorem load_network_failure_preserves_graph_witness :
    (load_network (fun _ => none) "data/causal_network.graphml" exGraph).2 =
      some LoadError.notFound ∧
    (load_network (fun _ => none) "data/causal_network.graphml" exGraph).1 = exGraph := by
  refine ⟨rfl, ?_⟩
  exact load_network_failure_preserves_graph (fun _ => none)
    "data/causal_network.graphml" exGraph LoadError.notFound rfl

/-! ### Confounding exclusion (`tremor/causal/event_study.py`, `_detect_overlapping_events`) -/

/-- A study event as gathered by `run_event_study`: the event id, its
timestamp (in days) and the signal's surprise value. -/
structure StudyEvent where
  event_id : String
  timestamp : ℚ
  surprise : ℚ

/-- An `Event` row of the events table as seen by the overlap query. -/
structure DbEvent where
  id : String
  type : String
  timestamp : ℚ

/-- Python's `abs` on a rational day difference. -/
def pyAbs (q : ℚ) : ℚ := if q < 0 then -q else q

/-- `_detect_overlapping_events` from `event_study.py`: for each study
event, scan all events (any cause) whose timestamps fall in the buffered
span, and mark the study event excluded citing the first other event within
`buffer_days`; an event is skipped as "self" only when its id is both in
the study set and equal to the candidate's id.  The result maps excluded
event ids to the colliding event's id (the exclusion reason cites it). -/
def detect_overlapping_events (study_events : List StudyEvent)
    (buffer_days : Nat) (db_events : List DbEvent) : List (String × String) :=
  let study_ids := study_events.map (fun ev => ev.event_id)
  let ts := study_events.map (fun ev => ev.timestamp)
  let earliest := ts.min?.getD 0 - (buffer_days : ℚ)
  let latest := ts.max?.getD 0 + (buffer_days : ℚ)
  let all_events := db_events.filter (fun e => earliest ≤ e.timestamp ∧ e.timestamp ≤ latest)
  study_events.filterMap (fun study_ev =>
    (all_events.find? (fun other =>
      ¬ (other.id ∈ study_ids ∧ other.id = study_ev.event_id) ∧
        pyAbs (study_ev.timestamp - other.timestamp) ≤ (buffer_days : ℚ))).map
      (fun other => (study_ev.event_id, other.id)))

/-- Two study events 5 days apart (surprises 0.25 and 0.30). -/
def exStudyEvents : List StudyEvent :=
  [⟨"A", 0, 1/4⟩, ⟨"B", 5, 3/10⟩]

/-- The same two events as rows of the events table. -/
def exDbEvents : List DbEvent :=
  [⟨"A", "fed_announcement", 0⟩, ⟨"B", "fed_announcement", 5⟩]

/-- C2 counterexample: with exactly two events 5 days apart, an overlap
buffer of 10 days and no other events in range, the code excludes BOTH
events of the pair (each cites the other), not exactly one. -/
theorem detect_overlapping_excludes_both :
    detect_overlapping_events exStudyEvents 10 exDbEvents =
      [("A", "B"), ("B", "A")] := by
  norm_num [detect_overlapping_events, exStudyEvents, exDbEvents, pyAbs,
    List.filter_cons, List.find?_cons, List.filterMap_cons, List.min?, List.max?]
  rfl

/-- C2 amended: in the two-events-5-days-apart scenario with buffer 10 the
exclusion step excludes both events of the pair, each citing the other;
and in general an exclusion never cites the excluded event itself (an event
is never excluded by being compared against itself). -/
theorem detect_overlapping_amended :
    ((detect_overlapping_events exStudyEvents 10 exDbEvents).map Prod.fst =
      ["A", "B"]) ∧
    (∀ (se : List StudyEvent) (buffer : Nat) (db : List DbEvent)
      (p : String × String), p ∈ detect_overlapping_events se buffer db →
        p.2 ≠ p.1) := by
  constructor
  · norm_num [detect_overlapping_events, exStudyEvents, exDbEvents, pyAbs,
      List.filter_cons, List.find?_cons, List.filterMap_cons, List.min?, List.max?]
    rfl
  · intro se buffer db p hp
    simp only [detect_overlapping_events, List.mem_filterMap] at hp
    obtain ⟨sev, hsev, hmap⟩ := hp
    rw [Option.map_eq_some'] at hmap
    obtain ⟨other, hfind, hpair⟩ := hmap
    have hpred := List.find?_some hfind
    simp only [decide_eq_true_eq] at hpred
    subst hpair
    intro heq
    have heq' : other.id = sev.event_id := heq
    have hin : sev.event_id ∈ se.map (fun ev => ev.event_id) :=
      List.mem_map_of_mem (fun ev => ev.event_id) hsev
    exact hpred.1 ⟨by rw [heq']; exact hin, heq'⟩

/-- Concrete run of `detect_overlapping_amended`: the exclusion of "A" in
the two-event scenario cites "B", not "A" itself. -/
theorem detect_overlapping_amended_witness :
    ("A", "B") ∈ detect_overlapping_events exStudyEvents 10 exDbEvents ∧
    ("B" : String) ≠ "A" := by
  have hmem : ("A", "B") ∈ detect_overlapping_events exStudyEvents 10 exDbEvents := by
    norm_num [detect_overlapping_events, exStudyEvents, exDbEvents, pyAbs,
      List.filter_cons, List.find?_cons, List.filterMap_cons, List.min?, List.max?]
    decide
  exact ⟨hmem, detect_overlapping_amended.2 exStudyEvents 10 exDbEvents ("A", "B") hmem⟩

/-! ### Propagation monitoring (`tremor/core/propagation.py`) -/

/-- The status field of a `PropagationResult` record. -/
inductive PropStatus where
  | pending
  | monitoring
  | completed
  | noResponse
deriving DecidableEq

/-- The fields of a `PropagationResult` record touched by
`check_propagation`.  Times are rational day counts. -/
structure PropRecord where
  status : PropStatus
  expected_direction : String
  actual_change : Option ℚ
  actual_lag_weeks : Option ℤ
  propagation_matched : Option Bool
  monitored_from : ℚ
  monitored_until : Option ℚ
deriving DecidableEq

/-- The outcome of `fetch_node_data`: a raised provider error, or a series
of values over the window. -/
inductive FetchResult where
  | err
  | ok (data : List ℚ)

/-- Python's `int()` on a rational: truncation toward zero. -/
def ratTrunc (q : ℚ) : ℤ := if 0 ≤ q then ⌊q⌋ else -⌊-q⌋

/-- `check_propagation` from `propagation.py` (the part after the record is
loaded): fetch the target series over `[monitored_from, min(now,
monitored_until)]`; on a fetch error return the record unchanged; on empty
data move to `no_response` only when the deadline has passed; otherwise
recompute `actual_change`, `actual_lag_weeks` and `propagation_matched` and
set the status to `completed` iff `now ≥ monitored_until`. -/
def check_propagation (now : ℚ) (fetch : FetchResult) (result : PropRecord) :
    PropRecord :=
  let end_date := match result.monitored_until with
    | some u => min now u
    | none => now
  match fetch with
  | FetchResult.err => result
  | FetchResult.ok data =>
    match data with
    | [] =>
      match result.monitored_until with
      | some u =>
        if now > u then { result with status := PropStatus.noResponse } else result
      | none => result
    | first :: rest =>
      let actual_change : ℚ := if rest.isEmpty then 0 else rest.getLastD first - first
      let days_elapsed : ℤ := ⌊end_date - result.monitored_from⌋
      let weeks_elapsed : ℚ := (days_elapsed : ℚ) / 7
      let lag : ℤ := max 1 (ratTrunc weeks_elapsed)
      let matched : Bool := decide ((result.expected_direction = "positive" ∧
        actual_change > 0) ∨ (result.expected_direction = "negative" ∧ actual_change < 0))
      let status := match result.monitored_until with
        | some u => if now ≥ u then PropStatus.completed else PropStatus.monitoring
        | none => PropStatus.monitoring
      { result with
        status := status,
        actual_change := some actual_change,
        actual_lag_weeks := some lag,
        propagation_matched := some matched }

/-- C7: when the market-data fetch raises, `check_propagation` returns the
record with every field unchanged and surfaces no exception. -/
theorem check_propagation_fetch_error_unchanged (now : ℚ) (r : PropRecord) :
    check_propagation now FetchResult.err r = r := rfl

/-- A record already in the terminal `completed` state, deadline at day 10. -/
def exRecord : PropRecord :=
  { status := PropStatus.completed
    expected_direction := "positive"
    actual_change := some 2
    actual_lag_weeks := some 1
    propagation_matched := some true
    monitored_from := 0
    monitored_until := some 10 }

/-- C6 counterexample: re-checking a `completed` record at day 11 with an
empty post-deadline fetch moves its status to `no_response` — a transition
between the two terminal states, which the claim says never happens. -/
theorem check_propagation_completed_to_no_response :
    exRecord.status = PropStatus.completed ∧
    (check_propagation 11 (FetchResult.ok []) exRecord).status = PropStatus.noResponse := by
  constructor
  · rfl
  · norm_num [check_propagation, exRecord]

/-- C6 amended: once a record is terminal (and the check time is at or past
its deadline, which monotone time guarantees, since only a post-deadline
check can have made it terminal), a later check leaves it terminal — it
never regresses to `monitoring`, though it may switch between `completed`
and `no_response` as late fetch results change; and a check never moves any
record into `pending`. -/
theorem check_propagation_terminal_stays_terminal :
    (∀ (now : ℚ) (fetch : FetchResult) (r : PropRecord) (u : ℚ),
      r.monitored_until = some u → u ≤ now →
      (r.status = PropStatus.completed ∨ r.status = PropStatus.noResponse) →
      ((check_propagation now fetch r).status = PropStatus.completed ∨
        (check_propagation now fetch r).status = PropStatus.noResponse)) ∧
    (∀ (now : ℚ) (fetch : FetchResult) (r : PropRecord),
      (check_propagation now fetch r).status = PropStatus.pending →
      r.status = PropStatus.pending) := by
  constructor
  · intro now fetch r u hu hnow hterm
    unfold check_propagation
    rcases fetch with _ | data
    · exact hterm
    · rcases data with _ | ⟨first, rest⟩
      · simp only [hu]
        by_cases hgt : now > u
        · rw [if_pos hgt]
          right
          rfl
        · rw [if_neg hgt]
          exact hterm
      · simp only [hu]
        rw [if_pos (le_refl u |>.trans hnow)]
        left
        rfl
  · intro now fetch r h
    rcases fetch with _ | data
    · exact h
    · rcases data with _ | ⟨first, rest⟩
      · rcases hu : r.monitored_until with _ | u
        · unfold check_propagation at h
          simp only [hu] at h
          exact h
        · unfold check_propagation at h
          simp only [hu] at h
          by_cases hgt : now > u
          · rw [if_pos hgt] at h
            exact absurd h (by simp)
          · rw [if_neg hgt] at h
            exact h
      · rcases hu : r.monitored_until with _ | u
        · unfold check_propagation at h
          simp only [hu] at h
          exact absurd h (by simp)
        · unfold check_propagation at h
          simp only [hu] at h
          by_cases hge : now ≥ u
          · rw [if_pos hge] at h
            exact absurd h (by simp)
          · rw [if_neg hge] at h
            exact absurd h (by simp)

/-- Concrete run of `check_propagation_terminal_stays_terminal`: the
`completed` example record, re-checked at day 11 with data `[1, 2]`, stays
in a terminal state. -/
theorem check_propagation_terminal_stays_terminal_witness :
    exRecord.monitored_until = some 10 ∧ (10 : ℚ) ≤ 11 ∧
    ((check_propagation 11 (FetchResult.ok [1, 2]) exRecord).status =
        PropStatus.completed ∨
      (check_propagation 11 (FetchResult.ok [1, 2]) exRecord).status =
        PropStatus.noResponse) := by
  refine ⟨rfl, by norm_num, ?_⟩
  exact check_propagation_terminal_stays_terminal.1 11 (FetchResult.ok [1, 2])
    exRecord 10 rfl (by norm_num) (Or.inl rfl)

/-! ### Event-study run (`tremor/causal/event_study.py`, `run_event_study`) -/

/-- `MIN_EVENTS_FOR_CAUSAL_TEST` from `config.py` (default 5). -/
def MIN_EVENTS_FOR_CAUSAL_TEST : Nat := 5

/-- The distinct failures `run_event_study` raises before reaching the
regression: the three insufficient-events checkpoints (raw population,
after confounding exclusions, after market-data filtering), each carrying
its count, and the no-market-data failure.  Each corresponds to a distinct
`ValueError` message in the source. -/
inductive StudyError where
  | insufficientEvents (found required : Nat)
  | insufficientAfterExclusions (remaining required : Nat)
  | noMarketData (node : String)
  | insufficientWithMarketData (remaining required : Nat)
deriving DecidableEq

/-- `_get_nearest_price` from `event_study.py`: the first available price
searching up to `max_search_days` days backward or forward from the target
date.  Prices are a daily series (day number, price). -/
def get_nearest_price (prices : List (ℤ × ℚ)) (target_date : ℤ)
    (backward : Bool) (max_search_days : Nat := 7) : Option ℚ :=
  (List.range (max_search_days + 1)).findSome? (fun i =>
    let check_date := if backward then target_date - i else target_date + i
    (prices.find? (fun p => p.1 = check_date)).map (fun p => p.2))

/-- The four boundary prices of `_compute_window_returns`: pre-start and
pre-end resolved backward, post-start and post-end forward; `none` when any
is missing or non-positive. -/
def window_boundary_prices (event_date : ℤ) (prices : List (ℤ × ℚ))
    (pre_window_days post_window_days gap_days : Nat) : Option (ℚ × ℚ × ℚ × ℚ) :=
  let pre_start_date := event_date - ((pre_window_days : ℤ) + gap_days)
  let pre_end_date := if gap_days > 0 then event_date - gap_days else event_date
  let post_start_date := if gap_days > 0 then event_date + gap_days else event_date
  let post_end_date := event_date + ((post_window_days : ℤ) + gap_days)
  match get_nearest_price prices pre_start_date true,
        get_nearest_price prices pre_end_date true,
        get_nearest_price prices post_start_date false,
        get_nearest_price prices post_end_date false with
  | some p1, some p2, some p3, some p4 =>
    if p1 ≤ 0 ∨ p2 ≤ 0 ∨ p3 ≤ 0 ∨ p4 ≤ 0 then none else some (p1, p2, p3, p4)
  | _, _, _, _ => none

/-- `_compute_window_returns` from `event_study.py`: the pre-window and
post-window log returns `(ln(pre_end/pre_start), ln(post_end/post_start))`
around the event's calendar date, or `none` when a boundary price is
missing or non-positive. -/
noncomputable def compute_window_returns (event_ts : ℚ) (prices : List (ℤ × ℚ))
    (pre_window_days post_window_days gap_days : Nat) : Option (ℝ × ℝ) :=
  (window_boundary_prices ⌊event_ts⌋ prices pre_window_days post_window_days
    gap_days).map (fun q =>
      (Real.log ((q.2.1 : ℝ) / (q.1 : ℝ)), Real.log ((q.2.2.2 : ℝ) / (q.2.2.1 : ℝ))))

/-- The events surviving the confounding-exclusion step of
`run_event_study` (step 2): those whose id is not in the exclusions map. -/
def includedAfterExclusions (signals : List StudyEvent) (exclude_overlapping : Bool)
    (overlap_buffer_days : Nat) (db_events : List DbEvent) : List StudyEvent :=
  let exclusions := if exclude_overlapping then
      detect_overlapping_events signals overlap_buffer_days db_events
    else []
  signals.filter (fun ev => ¬ (exclusions.any (fun x => x.1 = ev.event_id)))

/-- The per-event regression rows of `run_event_study` (step 4): for each
included event with computable window returns, its
`(surprise, pre_return, post_return)`. -/
noncomputable def regressionSample (included : List StudyEvent)
    (prices : List (ℤ × ℚ)) (pre_window_days post_window_days gap_days : Nat) :
    List (ℚ × ℝ × ℝ) :=
  included.filterMap (fun ev =>
    (compute_window_returns ev.timestamp prices pre_window_days post_window_days
      gap_days).map (fun r => (ev.surprise, r)))

/-- `run_event_study` from `event_study.py`, up to the regression: the
gathered signals, the events table and the fetched market series are inputs;
steps 5-9 (the OLS regression, the two placebos, the verdict and the stored
result) are abstracted into the `regress` continuation applied to the
surviving surprises and pre/post window returns — they run only when every
checkpoint passes. -/
noncomputable def run_event_study {α : Type} (regress : List ℚ → List ℝ → List ℝ → α)
    (signals : List StudyEvent) (db_events : List DbEvent)
    (market_data : Option (List (ℤ × ℚ))) (target_node : String)
    (pre_window_days post_window_days gap_days : Nat)
    (exclude_overlapping : Bool) (overlap_buffer_days : Nat)
    (min_events : Nat) : Except StudyError α :=
  let num_events := signals.length
  if num_events < min_events then
    Except.error (StudyError.insufficientEvents num_events min_events)
  else
    let included_events := includedAfterExclusions signals exclude_overlapping
      overlap_buffer_days db_events
    let num_events_used := included_events.length
    if num_events_used < min_events then
      Except.error (StudyError.insufficientAfterExclusions num_events_used min_events)
    else
      match market_data with
      | none => Except.error (StudyError.noMarketData target_node)
      | some prices =>
        if prices.isEmpty then
          Except.error (StudyError.noMarketData target_node)
        else
          let samples := regressionSample included_events prices pre_window_days
            post_window_days gap_days
          let num_used := samples.length
          if num_used < min_events then
            Except.error (StudyError.insufficientWithMarketData num_used min_events)
          else
            Except.ok (regress (samples.map (fun sm => sm.1))
              (samples.map (fun sm => sm.2.1)) (samples.map (fun sm => sm.2.2)))

/-- C3: whenever the event count falls below the configured minimum at any
of the three checkpoints, `run_event_study` fails with that checkpoint's
distinct insufficient-data error; at the raw-population and post-exclusion
checkpoints the failure is identical for every regression continuation and
every market-data response — no regression is attempted. -/
theorem run_event_study_checkpoints {α β : Type}
    (regress₁ : List ℚ → List ℝ → List ℝ → α)
    (regress₂ : List ℚ → List ℝ → List ℝ → β)
    (signals : List StudyEvent) (db_events : List DbEvent)
    (md₁ md₂ : Option (List (ℤ × ℚ))) (target_node : String)
    (pre post gap : Nat) (excl : Bool) (buf min_events : Nat) :
    (signals.length < min_events →
      run_event_study regress₁ signals db_events md₁ target_node pre post gap
          excl buf min_events =
        Except.error (StudyError.insufficientEvents signals.length min_events) ∧
      run_event_study regress₂ signals db_events md₂ target_node pre post gap
          excl buf min_events =
        Except.error (StudyError.insufficientEvents signals.length min_events)) ∧
    (min_events ≤ signals.length →
      (includedAfterExclusions signals excl buf db_events).length < min_events →
      run_event_study regress₁ signals db_events md₁ target_node pre post gap
          excl buf min_events =
        Except.error (StudyError.insufficientAfterExclusions
          (includedAfterExclusions signals excl buf db_events).length min_events) ∧
      run_event_study regress₂ signals db_events md₂ target_node pre post gap
          excl buf min_events =
        Except.error (StudyError.insufficientAfterExclusions
          (includedAfterExclusions signals excl buf db_events).length min_events)) ∧
    (∀ prices, min_events ≤ signals.length →
      min_events ≤ (includedAfterExclusions signals excl buf db_events).length →
      md₁ = some prices → prices.isEmpty = false →
      (regressionSample (includedAfterExclusions signals excl buf db_events)
        prices pre post gap).length < min_events →
      run_event_study regress₁ signals db_events md₁ target_node pre post gap
          excl buf min_events =
        Except.error (StudyError.insufficientWithMarketData
          (regressionSample (includedAfterExclusions signals excl buf db_events)
            prices pre post gap).length min_events)) := by
  refine ⟨?_, ?_, ?_⟩
  · intro h1
    constructor
    · unfold run_event_study
      rw [if_pos h1]
    · unfold run_event_study
      rw [if_pos h1]
  · intro h1 h2
    constructor
    · unfold run_event_study
      rw [if_neg (by omega), if_pos h2]
    · unfold run_event_study
      rw [if_neg (by omega), if_pos h2]
  · intro prices h1 h2 hmd hne h3
    unfold run_event_study
    rw [if_neg (by omega)]
    rw [if_neg (by omega)]
    rw [hmd]
    simp only [hne, Bool.false_eq_true, if_false, ite_false]
    rw [if_pos h3]

/-- Three signals only (below the default minimum of 5). -/
def sig3 : List StudyEvent :=
  [⟨"E1", 0, 1/4⟩, ⟨"E2", 30, -1/10⟩, ⟨"E3", 60, 1/2⟩]

/-- Five signals of which the first two are 5 days apart (the rest far). -/
def sig5over : List StudyEvent :=
  [⟨"E1", 0, 1/4⟩, ⟨"E2", 5, 3/10⟩, ⟨"E3", 60, -1/10⟩, ⟨"E4", 90, 1/2⟩,
    ⟨"E5", 120, -1/4⟩]

/-- The events table holding exactly those five events. -/
def db5over : List DbEvent :=
  [⟨"E1", "fed_announcement", 0⟩, ⟨"E2", "fed_announcement", 5⟩,
    ⟨"E3", "fed_announcement", 60⟩, ⟨"E4", "fed_announcement", 90⟩,
    ⟨"E5", "fed_announcement", 120⟩]

/-- Five well-separated signals (monthly spacing, no overlaps). -/
def sig5far : List StudyEvent :=
  [⟨"E1", 0, 1/4⟩, ⟨"E2", 60, 3/10⟩, ⟨"E3", 120, -1/10⟩, ⟨"E4", 180, 1/2⟩,
    ⟨"E5", 240, -1/4⟩]

/-- Concrete runs of `run_event_study_checkpoints`: 3 raw events fail the
first checkpoint; 5 events of which the overlapping pair is excluded (3
remain) fail the second; 5 events with a one-day price series (every window
misses data) fail the third. -/
theorem run_event_study_checkpoints_witness :
    (sig3.length < MIN_EVENTS_FOR_CAUSAL_TEST ∧
      run_event_study (fun _ _ _ => (0 : Nat)) sig3 [] none "d_treasury_10y"
          5 5 1 false 10 MIN_EVENTS_FOR_CAUSAL_TEST =
        Except.error (StudyError.insufficientEvents 3 5)) ∧
    ((includedAfterExclusions sig5over true 10 db5over).length <
        MIN_EVENTS_FOR_CAUSAL_TEST ∧
      run_event_study (fun _ _ _ => (0 : Nat)) sig5over db5over none
          "d_treasury_10y" 5 5 1 true 10 MIN_EVENTS_FOR_CAUSAL_TEST =
        Except.error (StudyError.insufficientAfterExclusions 3 5)) ∧
    ((regressionSample sig5far [(0, 1)] 5 5 1).length <
        MIN_EVENTS_FOR_CAUSAL_TEST ∧
      run_event_study (fun _ _ _ => (0 : Nat)) sig5far [] (some [(0, 1)])
          "d_treasury_10y" 5 5 1 false 10 MIN_EVENTS_FOR_CAUSAL_TEST =
        Except.error (StudyError.insufficientWithMarketData 0 5)) := by
  have hexcl : detect_overlapping_events sig5over 10 db5over =
      [("E1", "E2"), ("E2", "E1")] := by
    norm_num [detect_overlapping_events, sig5over, db5over, pyAbs,
      List.filter_cons, List.find?_cons, List.filterMap_cons, List.min?, List.max?]
    rfl
  have hlen : (includedAfterExclusions sig5over true 10 db5over).length = 3 := by
    simp only [includedAfterExclusions, if_true, hexcl]
    rfl
  refine ⟨⟨by decide, ?_⟩, ⟨by rw [hlen]; decide, ?_⟩, ⟨by decide, ?_⟩⟩
  · exact ((run_event_study_checkpoints (fun _ _ _ => (0 : Nat))
      (fun _ _ _ => (0 : Nat)) sig3 [] none none "d_treasury_10y" 5 5 1 false 10
      MIN_EVENTS_FOR_CAUSAL_TEST).1 (by decide)).1
  · have hrun := ((run_event_study_checkpoints (fun _ _ _ => (0 : Nat))
      (fun _ _ _ => (0 : Nat)) sig5over db5over none none "d_treasury_10y" 5 5 1
      true 10 MIN_EVENTS_FOR_CAUSAL_TEST).2.1 (by decide) (by rw [hlen]; decide)).1
    rw [hlen] at hrun
    exact hrun
  · have hrun := (run_event_study_checkpoints (fun _ _ _ => (0 : Nat))
      (fun _ _ _ => (0 : Nat)) sig5far [] (some [(0, 1)]) none "d_treasury_10y"
      5 5 1 false 10 MIN_EVENTS_FOR_CAUSAL_TEST).2.2 [(0, 1)] (by decide)
      (by decide) rfl rfl (by decide)
    have hzero : (regressionSample (includedAfterExclusions sig5far false 10 [])
        [(0, 1)] 5 5 1).length = 0 := by rfl
    rw [hzero] at hrun
    exact hrun

end Tremor
